import Mathlib

/-!
Shallow embedding of the AI-Fan MCP fan-control service.

Sources embedded:
- src/src/service.ts : withRetry, sendUdpMessage, turnOnLed/turnOffLed,
  turnOnFan/turnOffFan, setFanSpeed, checkFanHealth, cleanup
- src/src/utils/errors.ts : error classes and the ERROR_MESSAGES table
- src/unnamed/part_001 (utils/validation.ts) : fanSpeedSchema,
  ipAddressSchema, validateFanSpeed, validateIpAddress

JavaScript numbers are modelled as rationals, fallible code as Except,
the asynchronous retry loop as a fuel-indexed recursion that also records
how many times the wrapped operation ran and which backoff delays were
awaited.
-/

namespace AIFan

/-- Error values thrown by the service, from src/src/utils/errors.ts.
`undefinedThrown` models the JavaScript `throw lastError!` in withRetry when
`lastError` was never assigned (the thrown value is `undefined`, which is not
an `Error` instance). -/
inductive FanError where
  | validationError (message : String)
  | networkError (message : String)
  | undefinedThrown
  deriving DecidableEq, Repr

/-- ERROR_MESSAGES[ERROR_CODES.RETRY_EXHAUSTED] in src/src/utils/errors.ts. -/
def retryExhaustedMessage : String := "Maximum retry attempts exceeded"

/-- ERROR_MESSAGES[ERROR_CODES.TIMEOUT] in src/src/utils/errors.ts. -/
def timeoutMessage : String := "Operation timed out"

/-- ERROR_MESSAGES[ERROR_CODES.UDP_SEND_FAILED] in src/src/utils/errors.ts. -/
def udpSendFailedMessage : String := "Failed to send UDP message to fan"

/-- ERROR_MESSAGES[ERROR_CODES.INVALID_SPEED] in src/src/utils/errors.ts. -/
def invalidSpeedMessage : String := "Fan speed must be between 1 and 6"

/-- Models the JavaScript expression
`error instanceof Error ? error.message : String(error)` applied to a thrown
value: Error instances yield their message, the undefined value stringifies
to "undefined". -/
def FanError.messageOrString : FanError → String
  | .validationError m => m
  | .networkError m => m
  | .undefinedThrown => "undefined"

/-- Result of one run of the retry executor: the value returned or error
thrown, how many times the wrapped operation was invoked, and the list of
backoff delays (in ms) awaited between attempts. -/
structure RetryOutcome (α : Type) where
  result : Except FanError α
  attempts : Nat
  delays : List Nat
  deriving Repr

/-- The retry loop body of `withRetry` (src/src/service.ts lines 37-62),
indexed by the remaining loop iterations (`fuel`); the current 1-indexed
attempt number is passed explicitly.  Exhausting the fuel without returning
or throwing models falling through the `for` loop to `throw lastError!`
(line 64), where `lastError` is still undefined. -/
def retryGo {α : Type} (op : Nat → Except FanError α) (maxRetries baseDelay : Nat) :
    Nat → Nat → RetryOutcome α
  | _, 0 => ⟨Except.error FanError.undefinedThrown, 0, []⟩
  | attempt, fuel + 1 =>
    match op attempt with
    | Except.ok v => ⟨Except.ok v, 1, []⟩
    | Except.error _ =>
      if attempt = maxRetries then
        ⟨Except.error (FanError.networkError retryExhaustedMessage), 1, []⟩
      else
        let rest := retryGo op maxRetries baseDelay (attempt + 1) fuel
        ⟨rest.result, rest.attempts + 1, baseDelay * 2 ^ (attempt - 1) :: rest.delays⟩

/-- `withRetry` from src/src/service.ts lines 30-65: run `op` for attempts
1..maxRetries; return the first success; on failure at attempt = maxRetries
throw NetworkError(RETRY_EXHAUSTED); otherwise wait
`baseDelay * 2 ^ (attempt - 1)` ms and retry.  `op` is given the attempt
number so that attempt-dependent outcomes can be expressed. -/
def withRetry {α : Type} (op : Nat → Except FanError α) (maxRetries baseDelay : Nat) :
    RetryOutcome α :=
  retryGo op maxRetries baseDelay 1 maxRetries

/-- Outcome of one raw UDP send attempt inside `sendUdpMessage`
(src/src/service.ts lines 74-90): the send callback succeeds, the
per-attempt timer fires first, or the send callback reports an error. -/
inductive AttemptOutcome where
  | success
  | timeout
  | sendFailed
  deriving DecidableEq, Repr

/-- One attempt of the operation passed to `withRetry` by `sendUdpMessage`:
success resolves, a timeout rejects with NetworkError(TIMEOUT), a send error
rejects with NetworkError(UDP_SEND_FAILED). -/
def attemptOp (net : Nat → AttemptOutcome) (attempt : Nat) : Except FanError Unit :=
  match net attempt with
  | AttemptOutcome.success => Except.ok ()
  | AttemptOutcome.timeout => Except.error (FanError.networkError timeoutMessage)
  | AttemptOutcome.sendFailed => Except.error (FanError.networkError udpSendFailedMessage)

/-- The `UdpMessage` interface of src/src/service.ts lines 23-27: three
optional fields; an absent field is `none`. -/
structure UdpMessage where
  led? : Option Bool
  power? : Option Bool
  speed? : Option ℚ
  deriving DecidableEq, Repr

/-- JSON rendering of a boolean. -/
def jsonBool : Bool → String
  | true => "true"
  | false => "false"

/-- JSON rendering of a JavaScript number; the service only ever serialises
integral speed values, rendered like JSON.stringify renders them. -/
def jsonNumber (q : ℚ) : String :=
  if q.den = 1 then toString q.num else toString q

/-- The key:value pairs JSON.stringify produces for a UdpMessage, in the
declaration order of the interface fields; absent (undefined) fields are
omitted entirely. -/
def UdpMessage.fields (m : UdpMessage) : List String :=
  (match m.led? with
   | some b => ["\"led\":" ++ jsonBool b]
   | none => []) ++
  (match m.power? with
   | some b => ["\"power\":" ++ jsonBool b]
   | none => []) ++
  (match m.speed? with
   | some q => ["\"speed\":" ++ jsonNumber q]
   | none => [])

/-- Number of populated (non-absent) fields of a UdpMessage. -/
def UdpMessage.populatedCount (m : UdpMessage) : Nat :=
  m.led?.toList.length + m.power?.toList.length + m.speed?.toList.length

/-- `JSON.stringify(message)` on a UdpMessage (src/src/service.ts line 69). -/
def encodeUdpMessage (m : UdpMessage) : String :=
  "\x7b" ++ String.intercalate "," m.fields ++ "\x7d"

/-- `sendUdpMessage` from src/src/service.ts lines 68-99: wraps one send
attempt with `withRetry`; the catch block rethrows the same error, so the
outcome is that of the retry executor.  The network environment `net` gives
the raw outcome of each attempt; each invocation of the wrapped operation
issues exactly one datagram send, so `attempts` counts network sends. -/
def sendUdpMessage (_message : UdpMessage) (net : Nat → AttemptOutcome)
    (maxRetries baseDelay : Nat) : RetryOutcome Unit :=
  withRetry (attemptOp net) maxRetries baseDelay

/-- A JavaScript value as it reaches the validation functions (their TypeScript
parameter type is `unknown`); numbers are modelled as rationals. -/
inductive JsValue where
  | num (q : ℚ)
  | str (s : String)
  | boolVal (b : Bool)
  | nullValue
  | undefinedValue
  deriving DecidableEq, Repr

/-- The `typeof`-style type name zod reports for a received value. -/
def JsValue.typeName : JsValue → String
  | .num _ => "number"
  | .str _ => "string"
  | .boolVal _ => "boolean"
  | .nullValue => "null"
  | .undefinedValue => "undefined"

/-- `fanSpeedSchema.parse` from src/unnamed/part_001 lines 5-9:
`z.number().int().min(1, INVALID_SPEED).max(6, INVALID_SPEED)`.  The checks
run in the order they are chained, and the first failing check supplies
`errors[0].message`: a non-number fails the type check with the zod default
invalid-type message (or "Required" for undefined), a non-integer number
fails the `.int()` check with the zod default integer message, and an
integer outside [1,6] fails `.min`/`.max` with the custom INVALID_SPEED
message. -/
def fanSpeedCheck (v : JsValue) : Except String ℚ :=
  match v with
  | JsValue.num q =>
    if q.den ≠ 1 then Except.error "Expected integer, received float"
    else if q < 1 then Except.error invalidSpeedMessage
    else if 6 < q then Except.error invalidSpeedMessage
    else Except.ok q
  | JsValue.undefinedValue => Except.error "Required"
  | other => Except.error ("Expected number, received " ++ other.typeName)

/-- `validateFanSpeed` from src/unnamed/part_001 lines 25-34: parse against
fanSpeedSchema and rethrow the first zod issue as a ValidationError. -/
def validateFanSpeed (speed : JsValue) : Except FanError ℚ :=
  match fanSpeedCheck speed with
  | Except.ok q => Except.ok q
  | Except.error m => Except.error (FanError.validationError m)

/-- Whether `needle` occurs as a contiguous run inside `hay`. -/
def listIsInfixOf (needle : List Char) : List Char → Bool
  | [] => needle.isEmpty
  | c :: rest => needle.isPrefixOf (c :: rest) || listIsInfixOf needle rest

/-- Whether the string `hay` contains the string `needle`. -/
def stringContains (hay needle : String) : Bool :=
  listIsInfixOf needle.toList hay.toList

/-- The logical commands the facade can send, one per call site of
`sendUdpMessage` in src/src/service.ts (the speed value is the validated
number forwarded by setFanSpeed). -/
inductive Command where
  | ledOn
  | ledOff
  | powerOn
  | powerOff
  | speedLevel (q : ℚ)
  deriving DecidableEq, Repr

/-- The UdpMessage literal each facade operation passes to `sendUdpMessage`
(src/src/service.ts lines 105, 118, 132, 145, 162). -/
def commandMessage : Command → UdpMessage
  | Command.ledOn => ⟨some true, none, none⟩
  | Command.ledOff => ⟨some false, none, none⟩
  | Command.powerOn => ⟨none, some true, none⟩
  | Command.powerOff => ⟨none, some false, none⟩
  | Command.speedLevel q => ⟨none, none, some q⟩

/-- `setFanSpeed` from src/src/service.ts lines 156-176: validate first; a
ValidationError is rethrown before any send, otherwise the validated speed
is sent with retry (the catch block rethrows whatever error occurred). -/
def setFanSpeed (speed : ℚ) (net : Nat → AttemptOutcome)
    (maxRetries baseDelay : Nat) : RetryOutcome Unit :=
  match validateFanSpeed (JsValue.num speed) with
  | Except.error e => ⟨Except.error e, 0, []⟩
  | Except.ok v => sendUdpMessage ⟨none, none, some v⟩ net maxRetries baseDelay

/-- Health states of the probe report (src/src/service.ts lines 179-182). -/
inductive HealthState where
  | healthy
  | unhealthy
  deriving DecidableEq, Repr

/-- The value `checkFanHealth` resolves with. -/
structure HealthReport where
  status : HealthState
  details : String
  deriving DecidableEq, Repr

/-- `checkFanHealth` from src/src/service.ts lines 179-200: send the probe
message `(led: false)` with retry; success yields the healthy report, any
thrown error is absorbed into an unhealthy report whose details embed the
stringified error.  It is total: every outcome of the send path maps to a
report. -/
def checkFanHealth (net : Nat → AttemptOutcome) (maxRetries baseDelay : Nat) :
    HealthReport :=
  match (sendUdpMessage ⟨some false, none, none⟩ net maxRetries baseDelay).result with
  | Except.ok _ => ⟨HealthState.healthy, "Fan is responding to UDP messages"⟩
  | Except.error e =>
    ⟨HealthState.unhealthy, "Fan is not responding: " ++ e.messageOrString⟩

/-- State of the shared UDP socket. -/
inductive SocketState where
  | running
  | closedState
  deriving DecidableEq, Repr

/-- `socket.close()` of the node dgram module: closing a running socket
succeeds; closing an already-closed socket throws
ERR_SOCKET_DGRAM_NOT_RUNNING. -/
def socketClose : SocketState → SocketState × Except String Unit
  | SocketState.running => (SocketState.closedState, Except.ok ())
  | SocketState.closedState =>
    (SocketState.closedState, Except.error "ERR_SOCKET_DGRAM_NOT_RUNNING")

/-- `cleanup` from src/src/service.ts lines 203-213: call `client.close()`
inside try/catch; any error is logged and swallowed, so cleanup itself
always returns normally. -/
def cleanup (s : SocketState) : SocketState × Except String Unit :=
  ((socketClose s).fst, Except.ok ())

/-! ## Properties of the retry executor -/

/-- If every attempt fails, the loop runs all its remaining iterations and
throws the generic exhaustion error; the invariant `a + f = n + 1` ties the
current attempt number `a` to the remaining fuel `f`. -/
theorem retryGo_allFail {α : Type} (op : Nat → Except FanError α) (n d : Nat)
    (hop : ∀ k, ∃ e, op k = Except.error e) :
    ∀ f a, 1 ≤ f → a + f = n + 1 →
      (retryGo op n d a f).result =
        Except.error (FanError.networkError retryExhaustedMessage) ∧
      (retryGo op n d a f).attempts = f := by
  intro f
  induction f with
  | zero => intro a h1 _; omega
  | succ f ih =>
    intro a _ hsum
    obtain ⟨e, he⟩ := hop a
    by_cases ha : a = n
    · have hf : f = 0 := by omega
      subst hf
      subst ha
      simp [retryGo, he]
    · have hf : 1 ≤ f := by omega
      have h := ih (a + 1) hf (by omega)
      simp [retryGo, he, ha, h.1, h.2]

/-- If the operation succeeds at attempt `m` and fails at every earlier
attempt from `a` on, the loop returns the success value after `m + 1 - a`
invocations, having waited the doubling backoff delays in between. -/
theorem retryGo_succeedsAt {α : Type} (op : Nat → Except FanError α) (n d : Nat)
    (v : α) (m : Nat) (hm : op m = Except.ok v) (hmn : m ≤ n) :
    ∀ f a, 1 ≤ a → a + f = n + 1 → a ≤ m →
      (∀ j, a ≤ j → j < m → ∃ e, op j = Except.error e) →
      retryGo op n d a f =
        ⟨Except.ok v, m + 1 - a, (List.range' (a - 1) (m - a)).map (fun i => d * 2 ^ i)⟩ := by
  intro f
  induction f with
  | zero => intro a _ hsum ham _; omega
  | succ f ih =>
    intro a ha hsum ham hfail
    by_cases hae : a = m
    · subst hae
      have h1 : a + 1 - a = 1 := by omega
      have h2 : a - a = 0 := by omega
      simp [retryGo, hm, h1, h2]
    · obtain ⟨e, he⟩ := hfail a (Nat.le_refl a) (by omega)
      have han : a ≠ n := by omega
      have hrec := ih (a + 1) (by omega) (by omega) (by omega)
        (fun j hj1 hj2 => hfail j (by omega) hj2)
      have hsplit : m - a = (m - (a + 1)) + 1 := by omega
      have hsucc : a - 1 + 1 = a := by omega
      simp only [retryGo, he, han, if_false, hrec]
      refine congrArg₂ (RetryOutcome.mk (Except.ok v)) (by omega) ?_
      rw [hsplit, List.range'_succ, List.map_cons, hsucc]
      simp

/-- Whatever the operation does, with at least one permitted attempt the
loop either returns a success value or throws the exhaustion error: the
code after the loop is never reached. -/
theorem retryGo_ok_or_exhausted {α : Type} (op : Nat → Except FanError α) (n d : Nat) :
    ∀ f a, 1 ≤ f → a + f = n + 1 →
      (∃ v, (retryGo op n d a f).result = Except.ok v) ∨
      (retryGo op n d a f).result =
        Except.error (FanError.networkError retryExhaustedMessage) := by
  intro f
  induction f with
  | zero => intro a h1 _; omega
  | succ f ih =>
    intro a _ hsum
    cases hcase : op a with
    | ok v => exact Or.inl ⟨v, by simp [retryGo, hcase]⟩
    | error e =>
      by_cases ha : a = n
      · subst ha
        exact Or.inr (by simp [retryGo, hcase])
      · have hf : 1 ≤ f := by omega
        rcases ih (a + 1) hf (by omega) with ⟨v, hv⟩ | hex
        · exact Or.inl ⟨v, by simp [retryGo, hcase, ha, hv]⟩
        · exact Or.inr (by simp [retryGo, hcase, ha, hex])

/-- Claim C1: for every operation that fails on every attempt and every
`maxRetries = n ≥ 1`, withRetry invokes the operation exactly n times and
then fails with the generic NetworkError(RETRY_EXHAUSTED); the specific
error of the last attempt is discarded and only the generic exhaustion
signal reaches the caller. -/
theorem withRetry_exhausts_after_max_attempts {α : Type}
    (op : Nat → Except FanError α) (n d : Nat) (hn : 1 ≤ n)
    (hop : ∀ k, ∃ e, op k = Except.error e) :
    (withRetry op n d).result =
      Except.error (FanError.networkError retryExhaustedMessage) ∧
    (withRetry op n d).attempts = n :=
  retryGo_allFail op n d hop n 1 hn (by omega)

/-- Witness for C1: an operation that always times out, with maxRetries 3,
runs exactly 3 attempts and throws the exhaustion error. -/
theorem withRetry_exhausts_after_max_attempts_witness :
    (withRetry (fun _ => (Except.error (FanError.networkError timeoutMessage) :
        Except FanError Unit)) 3 100).result =
      Except.error (FanError.networkError retryExhaustedMessage) ∧
    (withRetry (fun _ => (Except.error (FanError.networkError timeoutMessage) :
        Except FanError Unit)) 3 100).attempts = 3 :=
  withRetry_exhausts_after_max_attempts _ 3 100 (by omega)
    (fun _ => ⟨FanError.networkError timeoutMessage, rfl⟩)

/-- Claim C2: if the operation fails at attempts 1..k-1 and succeeds at
attempt k ≤ maxRetries, withRetry returns that value with exactly k
invocations (no further attempts), having waited exactly the delays
`baseDelay * 2 ^ (j-1)` after each failed attempt j — the doubling sequence
with no jitter and no cap. -/
theorem withRetry_success_attempts_delays {α : Type}
    (op : Nat → Except FanError α) (n d : Nat) (v : α) (k : Nat)
    (hk1 : 1 ≤ k) (hkn : k ≤ n) (hk : op k = Except.ok v)
    (hfail : ∀ j, 1 ≤ j → j < k → ∃ e, op j = Except.error e) :
    withRetry op n d =
      ⟨Except.ok v, k, (List.range (k - 1)).map (fun i => d * 2 ^ i)⟩ := by
  have h := retryGo_succeedsAt op n d v k hk hkn n 1 (Nat.le_refl 1) (by omega) hk1 hfail
  have hk2 : k + 1 - 1 = k := by omega
  rw [withRetry, h, hk2, List.range_eq_range']

/-- Witness for C2: with maxRetries 3 and baseDelay 100, an operation that
fails on attempts 1 and 2 and succeeds on attempt 3 returns the value after
3 attempts with delays 100 then 200. -/
theorem withRetry_success_attempts_delays_witness :
    withRetry (fun j => if j = 3 then (Except.ok 37 : Except FanError Nat)
        else Except.error (FanError.networkError timeoutMessage)) 3 100 =
      ⟨Except.ok 37, 3, [100, 200]⟩ := by
  have h := withRetry_success_attempts_delays
    (fun j => if j = 3 then (Except.ok 37 : Except FanError Nat)
      else Except.error (FanError.networkError timeoutMessage)) 3 100 37 3
    (by omega) (by omega) rfl
    (fun j hj1 hj2 => ⟨FanError.networkError timeoutMessage, by interval_cases j <;> rfl⟩)
  simpa using h

/-- Claim C10: with maxRetries ≥ 1 every run of withRetry terminates inside
the loop — it either returns the operation value or throws the exhaustion
NetworkError — so the trailing `throw lastError!` after the loop is
unreachable; with maxRetries = 0 that fallthrough is reached and throws the
still-undefined `lastError`. -/
theorem withRetry_fallthrough_unreachable {α : Type}
    (op : Nat → Except FanError α) (n d : Nat) :
    (1 ≤ n →
      (∃ v, (withRetry op n d).result = Except.ok v) ∨
      (withRetry op n d).result =
        Except.error (FanError.networkError retryExhaustedMessage)) ∧
    (withRetry op 0 d).result = Except.error FanError.undefinedThrown := by
  constructor
  · intro hn
    exact retryGo_ok_or_exhausted op n d n 1 hn (by omega)
  · rfl

/-- Witness for C10 at a concrete succeeding operation with maxRetries 1. -/
theorem withRetry_fallthrough_unreachable_witness :
    (∃ v, (withRetry (fun _ => (Except.ok 0 : Except FanError Nat)) 1 5).result =
      Except.ok v) ∨
    (withRetry (fun _ => (Except.ok 0 : Except FanError Nat)) 1 5).result =
      Except.error (FanError.networkError retryExhaustedMessage) :=
  (withRetry_fallthrough_unreachable (fun _ => (Except.ok 0 : Except FanError Nat)) 1 5).1
    (by omega)

/-! ## Properties of the facade operations -/

/-- Claim C3: checkFanHealth never raises — for every outcome of its send
path it returns a status value: success of the probe send maps to the
healthy report, and any failure maps to an unhealthy report whose details
describe the failure, instead of the error propagating.  Totality holds by
construction: checkFanHealth is a function into HealthReport. -/
theorem checkFanHealth_total_status (net : Nat → AttemptOutcome) (n d : Nat) :
    ((sendUdpMessage ⟨some false, none, none⟩ net n d).result = Except.ok () →
      checkFanHealth net n d =
        ⟨HealthState.healthy, "Fan is responding to UDP messages"⟩) ∧
    (∀ e, (sendUdpMessage ⟨some false, none, none⟩ net n d).result = Except.error e →
      checkFanHealth net n d =
        ⟨HealthState.unhealthy, "Fan is not responding: " ++ e.messageOrString⟩) := by
  constructor
  · intro h
    simp [checkFanHealth, h]
  · intro e h
    simp [checkFanHealth, h]

/-- Witness for C3: a reachable endpoint yields the healthy report, an
always-failing endpoint yields an unhealthy report. -/
theorem checkFanHealth_total_status_witness :
    checkFanHealth (fun _ => AttemptOutcome.success) 1 0 =
      ⟨HealthState.healthy, "Fan is responding to UDP messages"⟩ :=
  (checkFanHealth_total_status (fun _ => AttemptOutcome.success) 1 0).1 rfl

/-- Claim C4: for every speed outside the valid range, setFanSpeed fails
immediately with a ValidationError having performed zero sends of the
wrapped operation (zero network sends) and zero backoff waits: validation
short-circuits before any encode or transport attempt and is never
retried. -/
theorem setFanSpeed_invalid_no_sends (q : ℚ) (net : Nat → AttemptOutcome) (n d : Nat)
    (hq : ¬(q.den = 1 ∧ 1 ≤ q ∧ q ≤ 6)) :
    ∃ m, setFanSpeed q net n d =
      ⟨Except.error (FanError.validationError m), 0, []⟩ := by
  by_cases h1 : q.den = 1
  · by_cases h2 : q < 1
    · exact ⟨invalidSpeedMessage, by simp [setFanSpeed, validateFanSpeed, fanSpeedCheck, h1, h2]⟩
    · have h3 : 6 < q := by
        rcases not_and.mp hq h1 with h
        by_contra h6
        exact h ⟨not_lt.mp h2, not_lt.mp h6⟩
      exact ⟨invalidSpeedMessage, by
        simp [setFanSpeed, validateFanSpeed, fanSpeedCheck, h1, h2, h3]⟩
  · exact ⟨"Expected integer, received float", by
      simp [setFanSpeed, validateFanSpeed, fanSpeedCheck, h1]⟩

/-- Witness for C4: setFanSpeed 7 fails with a ValidationError and zero
sends even over a perfectly reachable network. -/
theorem setFanSpeed_invalid_no_sends_witness :
    ∃ m, setFanSpeed 7 (fun _ => AttemptOutcome.success) 3 100 =
      ⟨Except.error (FanError.validationError m), 0, []⟩ :=
  setFanSpeed_invalid_no_sends 7 (fun _ => AttemptOutcome.success) 3 100
    (fun h => absurd h.2.2 (by norm_num))

/-- Counterexample to C5 as stated: a non-integer input fails with a
ValidationError carrying the zod integer-type message, not the speed-range
violation message; likewise a non-number carries a number-type message. -/
theorem validateFanSpeed_message_cex :
    validateFanSpeed (JsValue.str "fast") =
      Except.error (FanError.validationError "Expected number, received string") ∧
    ("Expected number, received string" ≠ invalidSpeedMessage) ∧
    validateFanSpeed (JsValue.boolVal true) =
      Except.error (FanError.validationError "Expected number, received boolean") ∧
    ("Expected number, received boolean" ≠ invalidSpeedMessage) := by
  refine ⟨rfl, ?_, rfl, ?_⟩ <;> decide

/-- Claim C5 as amended: every integer in [1,6] validates to itself; an
integer outside [1,6] fails with the speed-range violation message; a
non-integer number fails with the zod integer-type message; every
non-number input fails with a ValidationError (carrying a type violation
message rather than the speed-range one). -/
theorem validateFanSpeed_amended (q : ℚ) :
    (q.den = 1 → 1 ≤ q → q ≤ 6 → validateFanSpeed (JsValue.num q) = Except.ok q) ∧
    (q.den = 1 → ¬(1 ≤ q ∧ q ≤ 6) →
      validateFanSpeed (JsValue.num q) =
        Except.error (FanError.validationError invalidSpeedMessage)) ∧
    (q.den ≠ 1 →
      validateFanSpeed (JsValue.num q) =
        Except.error (FanError.validationError "Expected integer, received float")) ∧
    (∀ v : JsValue, (∀ r, v ≠ JsValue.num r) →
      ∃ m, validateFanSpeed v = Except.error (FanError.validationError m)) := by
  refine ⟨?_, ?_, ?_, ?_⟩
  · intro hden h1 h6
    simp [validateFanSpeed, fanSpeedCheck, hden, not_lt.mpr h1, not_lt.mpr h6]
  · intro hden hno
    by_cases hlt : q < 1
    · simp [validateFanSpeed, fanSpeedCheck, hden, hlt]
    · have h6 : 6 < q := by
        by_contra h6
        exact hno ⟨not_lt.mp hlt, not_lt.mp h6⟩
      simp [validateFanSpeed, fanSpeedCheck, hden, hlt, h6]
  · intro hden
    simp [validateFanSpeed, fanSpeedCheck, hden]
  · intro v hv
    cases v with
    | num r => exact absurd rfl (hv r)
    | str s => exact ⟨_, rfl⟩
    | boolVal b => exact ⟨_, rfl⟩
    | nullValue => exact ⟨_, rfl⟩
    | undefinedValue => exact ⟨_, rfl⟩

/-- Witness for C5 (amended): 4 validates to itself, 7 fails with the
speed-range message, and a string fails with a ValidationError. -/
theorem validateFanSpeed_amended_witness :
    validateFanSpeed (JsValue.num 4) = Except.ok 4 ∧
    validateFanSpeed (JsValue.num 7) =
      Except.error (FanError.validationError invalidSpeedMessage) ∧
    ∃ m, validateFanSpeed (JsValue.str "fast") =
      Except.error (FanError.validationError m) :=
  ⟨(validateFanSpeed_amended 4).1 rfl (by norm_num) (by norm_num),
   (validateFanSpeed_amended 7).2.1 rfl (fun h => absurd h.2 (by norm_num)),
   (validateFanSpeed_amended 0).2.2.2 (JsValue.str "fast") (fun r h => by cases h)⟩

/-- Counterexample to C7 as stated: when every attempt times out, the
details of the unhealthy report embed the generic exhaustion message, which
does not contain "timed out" (the phrase of the per-attempt TIMEOUT message,
discarded by withRetry at exhaustion). -/
theorem checkFanHealth_timeout_detail_cex :
    checkFanHealth (fun _ => AttemptOutcome.timeout) 3 100 =
      ⟨HealthState.unhealthy, "Fan is not responding: Maximum retry attempts exceeded"⟩ ∧
    stringContains "Fan is not responding: Maximum retry attempts exceeded" "timed out" = false ∧
    stringContains timeoutMessage "timed out" = true := by
  refine ⟨rfl, rfl, rfl⟩

/-- Claim C7 as amended: checkFanHealth against an endpoint where every
attempt times out returns the unhealthy report whose details are
"Fan is not responding: Maximum retry attempts exceeded" — the generic
exhaustion description, the timeout description having been discarded — and
it does not raise (it returns a report for every such environment). -/
theorem checkFanHealth_all_timeouts_amended (net : Nat → AttemptOutcome)
    (n d : Nat) (hn : 1 ≤ n) (htimeout : ∀ k, net k = AttemptOutcome.timeout) :
    checkFanHealth net n d =
      ⟨HealthState.unhealthy,
        "Fan is not responding: Maximum retry attempts exceeded"⟩ := by
  have hop : ∀ k, ∃ e, attemptOp net k = Except.error e := by
    intro k
    exact ⟨FanError.networkError timeoutMessage, by simp [attemptOp, htimeout k]⟩
  have h := retryGo_allFail (attemptOp net) n d hop n 1 hn (by omega)
  simp [checkFanHealth, sendUdpMessage, withRetry] at h ⊢
  rw [h.1]
  rfl

/-- Witness for C7 (amended) at a concrete all-timeout environment. -/
theorem checkFanHealth_all_timeouts_amended_witness :
    checkFanHealth (fun _ => AttemptOutcome.timeout) 2 100 =
      ⟨HealthState.unhealthy,
        "Fan is not responding: Maximum retry attempts exceeded"⟩ :=
  checkFanHealth_all_timeouts_amended (fun _ => AttemptOutcome.timeout) 2 100
    (by omega) (fun _ => rfl)

/-- Claim C8: the command encoding is a pure deterministic function — every
command populates exactly one of the led/power/speed fields, the others are
omitted entirely (never serialised as null or a default), and the
JSON.stringify payload of each variant is fixed. -/
theorem encode_exactly_one_field :
    (∀ c : Command, (commandMessage c).populatedCount = 1) ∧
    encodeUdpMessage (commandMessage Command.ledOn) = "\x7b\"led\":true\x7d" ∧
    encodeUdpMessage (commandMessage Command.ledOff) = "\x7b\"led\":false\x7d" ∧
    encodeUdpMessage (commandMessage Command.powerOn) = "\x7b\"power\":true\x7d" ∧
    encodeUdpMessage (commandMessage Command.powerOff) = "\x7b\"power\":false\x7d" ∧
    (∀ q : ℚ, (commandMessage (Command.speedLevel q)).fields =
      ["\"speed\":" ++ jsonNumber q]) ∧
    encodeUdpMessage (commandMessage (Command.speedLevel 4)) = "\x7b\"speed\":4\x7d" := by
  refine ⟨?_, rfl, rfl, rfl, rfl, ?_, rfl⟩
  · intro c
    cases c <;> rfl
  · intro q
    rfl

/-- Claim C9: cleanup (the shutdown hook) is idempotent and non-raising —
it returns normally from every socket state, in particular when called a
second time after the socket is already closed, even though the underlying
close() of an already-closed socket throws. -/
theorem cleanup_idempotent_no_raise (s : SocketState) :
    (cleanup s).snd = Except.ok () ∧
    (cleanup (cleanup s).fst).snd = Except.ok () ∧
    (cleanup SocketState.running).fst = SocketState.closedState ∧
    (socketClose SocketState.closedState).snd =
      Except.error "ERR_SOCKET_DGRAM_NOT_RUNNING" :=
  ⟨rfl, rfl, rfl, rfl⟩

end AIFan
